import Mathlib

/-!
Shallow embedding of the conversational avatar widget repository
(components/AvatarWidget.tsx and its two sibling widget variants).

Modelling conventions.  JavaScript strings are Lean `String`; the
library functions `trim`, `toLowerCase` and `includes` are
re-implemented over the underlying character list (`jsTrim`, `jsLower`,
`strContains`) so that every definition evaluates by kernel reduction.
JavaScript truthiness on optional string fields (null, undefined and the
empty string are all falsy) is `truthyStr`.  External nondeterminism is
passed in as explicit parameters: the outcome of a network fetch, the
index drawn from Math.random for the mock filler replies, and whether a
media element rejects playback.  Side effects are recorded in explicit
action lists: store appends, issued fetches, audio-element playback,
speech-synthesis dispatch and the artificial mock delay.  Purely
presentational state (expression tag, mascot selection, avatar upload
preview, scroll position) is outside the model.

Namespace `V1` models the first widget variant (top of AvatarWidget.tsx;
the unnamed sibling file differs only in asset tables and the demo reply
wording).  Namespace `Fut` models the AvatarWidgetFuturistic variant.
Namespace `P0` models the minimal variant in the first unnamed file.
-/

/-- Lower-case an ASCII letter, as String.prototype.toLowerCase acts on
the ASCII inputs consumed by the keyword tables. -/
def lcChar (c : Char) : Char :=
  if c.toNat ≥ 65 ∧ c.toNat ≤ 90 then Char.ofNat (c.toNat + 32) else c

/-- Model of JavaScript String.prototype.toLowerCase. -/
def jsLower (s : String) : String := ⟨s.data.map lcChar⟩

/-- ASCII whitespace recognised by the trim model. -/
def isWsChar (c : Char) : Bool :=
  c = ' ' || c = '\t' || c = '\n' || c = '\r'

/-- Model of JavaScript String.prototype.trim. -/
def jsTrim (s : String) : String :=
  ⟨((s.data.dropWhile isWsChar).reverse.dropWhile isWsChar).reverse⟩

/-- Check whether the second list is a prefix of the first. -/
def startsList : List Char → List Char → Bool
  | _, [] => true
  | [], _ :: _ => false
  | c :: cs, p :: ps => c == p && startsList cs ps

/-- Check whether the second list occurs inside the first. -/
def infxList : List Char → List Char → Bool
  | l, p =>
    if startsList l p then true
    else
      match l with
      | [] => p.isEmpty
      | _ :: cs => infxList cs p

/-- Model of JavaScript String.prototype.includes. -/
def strContains (s pat : String) : Bool := infxList s.data pat.data

/-- JavaScript truthiness for an optional string field: null, undefined
and the empty string are all falsy. -/
def truthyStr : Option String → Option String
  | some s => if s = "" then none else some s
  | none => none

/-- Sender of a conversation turn. -/
inductive Sender
  | user
  | assistant
deriving DecidableEq

/-- Role string derived from a sender, as sent to the reply endpoint. -/
def roleOf : Sender → String
  | .user => "user"
  | .assistant => "assistant"

/-- Voice-mode toggle of the futuristic widget variant. -/
inductive VMode
  | text
  | voice
deriving DecidableEq

namespace V1

/-- Element of ChatResponse.recommended_products in the first widget
variant: ids may be strings and price is optional. -/
structure RecItem where
  id : String
  title : String
  price : Option String := none
  handle : Option String := none
  variant_id : Option Nat := none
deriving DecidableEq

/-- The ChatResponse type of the first widget variant. -/
structure ChatResponse where
  text : String
  speech_url : Option String := none
  avatar_video_url : Option String := none
  recommended_products : Option (List RecItem) := none
  expression : Option String := none
deriving DecidableEq

/-- Playback attempts the speech-output chain can make. -/
inductive PlayAction
  | playAudio (url : String)
  | playVideo (url : String)
  | tts (text : String)
deriving DecidableEq

/-- Recognise a video playback attempt. -/
def isVideoAct : PlayAction → Bool
  | .playVideo _ => true
  | _ => false

/-- Embedding of playSpeech.  The source checks speech_url first: it
assigns the audio element and awaits play(); if play() rejects it calls
speakWithTTS and returns.  Only when speech_url is absent does it look
at avatar_video_url (guarded by the video element existing), again
falling back to speakWithTTS when play() rejects, and otherwise it calls
speakWithTTS directly.  Playback rejection is the audioFails and
videoFails parameters; hasVideoEl is whether videoRef.current is set. -/
def playSpeech (muted hasVideoEl audioFails videoFails : Bool)
    (r : ChatResponse) : List PlayAction :=
  if muted then []
  else
    match truthyStr r.speech_url with
    | some u => if audioFails then [.playAudio u, .tts r.text] else [.playAudio u]
    | none =>
      match truthyStr r.avatar_video_url with
      | some v =>
        if hasVideoEl then
          if videoFails then [.playVideo v, .tts r.text] else [.playVideo v]
        else [.tts r.text]
      | none => [.tts r.text]

/-- Result of the live fetch as seen by fetchChat. -/
inductive FetchOutcome
  | ok (data : ChatResponse)
  | httpError (status : Nat)
  | networkError
deriving DecidableEq

/-- The canned product of the mock branch of fetchChat. -/
def demoRecItem : RecItem :=
  { id := "demo-1", title := "Demo Product", price := some "$9.99",
    handle := some "demo-product", variant_id := some 111 }

/-- The fixed apology of the catch branch of fetchChat. -/
def apology : String :=
  "Sorry, I couldn\x27t reach the server. Running in demo mode. Please check your NEXT_PUBLIC_API_URL."

/-- Embedding of fetchChat.  In mock mode it waits and returns the fixed
demo reply, ignoring the message content except for echoing it in the
text.  In live mode a non-ok response throws and the catch clause turns
any failure into the fixed apology reply with every optional field
absent. -/
def fetchChat (mockMode : Bool) (outcome : FetchOutcome) (message : String) :
    ChatResponse :=
  if mockMode then
    { text := "Demo reply to: \"" ++ message ++ "\" — try providing a real NEXT_PUBLIC_API_URL for live replies.",
      speech_url := none,
      recommended_products := some [demoRecItem],
      expression := some "happy" }
  else
    match outcome with
    | .ok data => data
    | .httpError _ => { text := apology }
    | .networkError => { text := apology }

/-- Conversation-relevant state of the first widget variant. -/
structure State where
  historyH : List (String × String)
  lastReply : Option ChatResponse
  muted : Bool
deriving DecidableEq

/-- Embedding of handleSendMessage: a falsy or whitespace-only message
returns immediately; otherwise the user turn is appended, fetchChat is
awaited, the assistant turn is appended and playSpeech runs on the
reply. -/
def handleSendMessage (mockMode : Bool) (s : State) (message : String)
    (outcome : FetchOutcome) (hasVideoEl audioFails videoFails : Bool) :
    State × List PlayAction :=
  if message = "" ∨ jsTrim message = "" then (s, [])
  else
    let newHistory := s.historyH ++ [("user", message)]
    let reply := fetchChat mockMode outcome message
    ({ s with historyH := newHistory ++ [("assistant", reply.text)],
              lastReply := some reply },
     playSpeech s.muted hasVideoEl audioFails videoFails reply)

end V1

namespace Fut

/-- Product type of the futuristic variant. -/
structure Product where
  id : Nat
  title : String
  price : String
  handle : Option String := none
  variant_id : Option Nat := none
deriving DecidableEq

/-- Message (conversation turn) of the futuristic variant. -/
structure Message where
  id : String
  text : String
  sender : Sender
  time : Nat
  mtype : Option String := none
  audioUrl : Option String := none
deriving DecidableEq

/-- Response body expected from the live backend. -/
structure ChatResponse where
  text : String
  speech_url : Option String := none
  avatar_video_url : Option String := none
  recommended_products : Option (List Product) := none
  expression : Option String := none
deriving DecidableEq

/-- Orchestration-relevant state of the futuristic widget. -/
structure WidgetState where
  isOpen : Bool
  muted : Bool
  voiceMode : VMode
  input : String
  messages : List Message
  typing : Bool
  recommended : List Product
  videoUrl : Option String
  listening : Bool
deriving DecidableEq

/-- Observable side effects of the futuristic widget. -/
inductive Action
  | append (m : Message)
  | fetchIssued (shop message : String) (history : List (String × String))
  | playAudio (url : String)
  | tts (text : String)
  | delay
deriving DecidableEq

/-- Recognise an audible output attempt (audio element or synthesis). -/
def isSpeechAct : Action → Bool
  | .playAudio _ => true
  | .tts _ => true
  | _ => false

/-- Recognise an issued fetch. -/
def isFetchAct : Action → Bool
  | .fetchIssued _ _ _ => true
  | _ => false

/-- History payload derived from a message list, as callBackend builds
it from its render snapshot of messages. -/
def historyOf (ms : List Message) : List (String × String) :=
  ms.map fun m => (roleOf m.sender, m.text)

/-- Canned product of the headphone/headset branch of mockReply. -/
def premiumHeadphones : Product :=
  { id := 1, title := "Premium Wireless Headphones", price := "$129.99",
    handle := some "wireless-headphones", variant_id := some 111 }

/-- Canned product of the fitness/tracker branch of mockReply. -/
def fitnessTracker : Product :=
  { id := 2, title := "Smart Fitness Tracker", price := "$89.99",
    handle := some "fitness-tracker", variant_id := some 222 }

/-- Canned product of the fallback branch of mockReply. -/
def bluetoothSpeaker : Product :=
  { id := 3, title := "Portable Bluetooth Speaker", price := "$79.99",
    handle := some "bluetooth-speaker", variant_id := some 333 }

/-- The fixed filler texts of the fallback branch of mockReply. -/
def mockVariants : List String :=
  ["Nice choice — I can find the perfect match for your needs.",
   "On it — scanning the shop for best options.",
   "Hmm — I have a few recommendations coming right up."]

/-- Keyword-matching core of mockReply: reply text and recommended
products as a function of the message.  randIdx stands for the value of
Math.floor(Math.random() * variants.length) drawn at that invocation;
it is taken modulo 3 so that every natural number denotes a draw. -/
def mockReplyCore (randIdx : Nat) (userText : String) : String × List Product :=
  let lower := jsLower userText
  if strContains lower "headphone" || strContains lower "headset" then
    ("Our Premium Wireless Headphones have active noise-cancellation and 30hr battery life.",
     [premiumHeadphones])
  else if strContains lower "fitness" || strContains lower "tracker" then
    ("The Smart Fitness Tracker monitors heart rate, steps, and sleep — great for daily fitness.",
     [fitnessTracker])
  else
    (mockVariants.getD (randIdx % 3) "",
     [premiumHeadphones, bluetoothSpeaker].take 2)

/-- Result of the live fetch as seen by callBackend. -/
inductive FetchOutcome
  | ok (data : ChatResponse)
  | error
deriving DecidableEq

/-- The user message pushed by handleSend. -/
def userMsgOf (text : String) (now : Nat) : Message :=
  { id := "u-" ++ toString now, text := text, sender := .user, time := now }

/-- Steps of handleSend executed synchronously before the first
suspension point: push the user turn, clear the composer, clear the
pending recommendations, and raise the typing flag (raised at the start
of mockReply and callBackend alike). -/
def sendPhase1 (s : WidgetState) (text : String) (now : Nat) : WidgetState :=
  { s with messages := s.messages ++ [userMsgOf text now],
           input := "", recommended := [], typing := true }

/-- Assistant turn pushed by mockReply. -/
def mockAssistantMsg (now randIdx : Nat) (userText : String) : Message :=
  { id := "m-" ++ toString now, text := (mockReplyCore randIdx userText).1,
    sender := .assistant, time := now, mtype := some "store" }

/-- Embedding of mockReply: state and actions after the artificial
delay resolves.  The typing flag is raised during the delay and cleared
before completion; the returned state is the completed one. -/
def mockReply (s : WidgetState) (now randIdx : Nat) (userText : String) :
    WidgetState × List Action :=
  let speechActs :=
    if s.voiceMode = VMode.voice ∧ s.muted = false then
      [Action.tts (mockReplyCore randIdx userText).1]
    else []
  ({ s with messages := s.messages ++ [mockAssistantMsg now randIdx userText],
            recommended := (mockReplyCore randIdx userText).2,
            typing := false, videoUrl := none },
   [Action.delay, Action.append (mockAssistantMsg now randIdx userText)] ++ speechActs)

/-- Assistant text of a successful live call: the response text, or the
fallback when it is falsy. -/
def okAssistantText (data : ChatResponse) : String :=
  if data.text = "" then "No response" else data.text

/-- Assistant turn pushed on a successful live call. -/
def okAssistantMsg (now : Nat) (data : ChatResponse) : Message :=
  { id := "m-" ++ toString now, text := okAssistantText data,
    sender := .assistant, time := now, audioUrl := truthyStr data.speech_url }

/-- Assistant turn pushed by the catch clause of a failing live call. -/
def errAssistantMsg (now : Nat) : Message :=
  { id := "m-" ++ toString now,
    text := "Sorry, I couldn\x27t reach the server.",
    sender := .assistant, time := now }

/-- Speech output of a successful live call: only when the voice mode
is voice and the widget is not muted; the remote clip is preferred and
synthesis runs when its play() rejects. -/
def okSpeechActs (s : WidgetState) (data : ChatResponse)
    (audioPlayFails : Bool) : List Action :=
  if s.voiceMode = VMode.voice ∧ s.muted = false then
    match truthyStr data.speech_url with
    | some u =>
      if audioPlayFails then [Action.playAudio u, Action.tts (okAssistantText data)]
      else [Action.playAudio u]
    | none => [Action.tts (okAssistantText data)]
  else []

/-- Continuation of callBackend after its fetch resolves, including the
finally clause that clears the typing flag.  On success the assistant
turn carries the speech url, the recommendation list and video url are
replaced from the response, and the speech output chain runs.  On
failure only the fixed apology turn is pushed. -/
def resolveCall (s : WidgetState) (now : Nat) (outcome : FetchOutcome)
    (audioPlayFails : Bool) : WidgetState × List Action :=
  match outcome with
  | .ok data =>
    ({ s with messages := s.messages ++ [okAssistantMsg now data],
              recommended := data.recommended_products.getD [],
              videoUrl := truthyStr data.avatar_video_url,
              typing := false },
     Action.append (okAssistantMsg now data) :: okSpeechActs s data audioPlayFails)
  | .error =>
    ({ s with messages := s.messages ++ [errAssistantMsg now], typing := false },
     [Action.append (errAssistantMsg now)])

/-- Embedding of callBackend: issue one fetch whose history payload
comes from the render snapshot of messages, then run the resolution
continuation.  No retry exists: exactly one fetch is issued. -/
def callBackend (snapshot : List Message) (s : WidgetState) (now : Nat)
    (shop message : String) (outcome : FetchOutcome) (audioPlayFails : Bool) :
    WidgetState × List Action :=
  let res := resolveCall s now outcome audioPlayFails
  (res.1, Action.fetchIssued shop message (historyOf snapshot) :: res.2)

/-- Embedding of handleSend.  The submitted text is the override (the
recognised transcript) when present, else the composer content, then
trimmed; empty text returns silently.  Otherwise the user turn is
appended before the gateway is invoked; the history snapshot passed to
callBackend is the pre-push messages value captured by the render
closure. -/
def handleSend (mockMode : Bool) (s : WidgetState) (textOverride : Option String)
    (now randIdx : Nat) (shop : String) (outcome : FetchOutcome)
    (audioPlayFails : Bool) : WidgetState × List Action :=
  let text := jsTrim (textOverride.getD s.input)
  if text = "" then (s, [])
  else
    let s1 := sendPhase1 s text now
    let res :=
      if mockMode then mockReply s1 now randIdx text
      else callBackend s.messages s1 now shop text outcome audioPlayFails
    (res.1, Action.append (userMsgOf text now) :: res.2)

/-- Confirmation turn pushed by the add-to-cart handler. -/
def cartMsg (p : Product) (now : Nat) : Message :=
  { id := "c-" ++ toString now, text := p.title ++ " has been added to your cart.",
    sender := .assistant, time := now, mtype := some "store" }

/-- User-visible operations of the futuristic widget that touch the
modelled state.  clearChat is the Clear button, which resets the
message log and the recommendations. -/
inductive Op
  | send (textOverride : Option String) (now randIdx : Nat) (shop : String)
      (outcome : FetchOutcome) (audioPlayFails : Bool)
  | clearChat
  | toggleMute
  | chooseVoiceMode (v : VMode)
  | addToCart (p : Product) (now : Nat)
  | setOpenFlag (b : Bool)
  | typeInput (t : String)
deriving DecidableEq

/-- One step of the widget under a user operation. -/
def applyOp (mockMode : Bool) (s : WidgetState) : Op → WidgetState × List Action
  | .send t now randIdx shop oc af => handleSend mockMode s t now randIdx shop oc af
  | .clearChat => ({ s with messages := [], recommended := [] }, [])
  | .toggleMute => ({ s with muted := ! s.muted }, [])
  | .chooseVoiceMode v => ({ s with voiceMode := v }, [])
  | .addToCart p now =>
    ({ s with messages := s.messages ++ [cartMsg p now] },
     [Action.append (cartMsg p now)])
  | .setOpenFlag b => ({ s with isOpen := b }, [])
  | .typeInput t => ({ s with input := t }, [])

/-- Text of the initial greeting effect. -/
def welcomeText : String :=
  "Hello — I\u2019m your AI shopping avatar. Ask me anything about the store."

/-- The greeting message installed by the mount effect. -/
def welcomeMsg (now : Nat) : Message :=
  { id := "m-" ++ toString now, text := welcomeText, sender := .assistant,
    time := now, mtype := some "general" }

/-- Widget state right after mount: stored preference flags are read
back and the greeting effect has filled the log with exactly the
welcome turn. -/
def initState (savedOpen savedMuted : Bool) (savedVoiceMode : VMode)
    (now : Nat) : WidgetState :=
  { isOpen := savedOpen, muted := savedMuted, voiceMode := savedVoiceMode,
    input := "", messages := [welcomeMsg now], typing := false,
    recommended := [], videoUrl := none, listening := false }

/-- One submission: its text and the external inputs of its run. -/
structure Submission where
  text : String
  now : Nat
  randIdx : Nat
  outcome : FetchOutcome
  audioPlayFails : Bool
deriving DecidableEq

/-- Sequential processing: each submission completes before the next
one is initiated. -/
def runSubmissions (mockMode : Bool) (shop : String) :
    WidgetState → List Submission → WidgetState
  | s, [] => s
  | s, sub :: rest =>
    runSubmissions mockMode shop
      (handleSend mockMode s (some sub.text) sub.now sub.randIdx shop
        sub.outcome sub.audioPlayFails).1 rest

/-- Event-loop schedule in which a second submission is initiated while
the first live call is still in flight (nothing disables the composer
while the typing flag is set) and the second call resolves first.  Both
submissions run their pre-suspension phase in initiation order; the
resolution continuations run in network order. -/
def interleavedTwo (s : WidgetState) (tA tB : String) (nowA nowB : Nat)
    (ocA ocB : FetchOutcome) : WidgetState :=
  let s1 := sendPhase1 s (jsTrim tA) nowA
  let s2 := sendPhase1 s1 (jsTrim tB) nowB
  let s3 := (resolveCall s2 nowB ocB false).1
  (resolveCall s3 nowA ocA false).1

end Fut

namespace P0

/-- Product type of the minimal variant. -/
structure ShopifyProduct where
  id : Nat
  title : String
  price : String
  handle : Option String := none
  variant_id : Option Nat := none
deriving DecidableEq

/-- Message type of the minimal variant (numeric ids). -/
structure Message where
  id : Nat
  text : String
  sender : Sender
  time : Nat
  mtype : Option String := none
deriving DecidableEq

/-- Backend response fields read by the minimal variant. -/
structure RespData where
  text : Option String := none
  recommended_products : Option (List ShopifyProduct) := none
  avatar_video_url : Option String := none
deriving DecidableEq

/-- Interface language of the minimal variant. -/
inductive Lang
  | en
  | fr
deriving DecidableEq

/-- Orchestration-relevant state of the minimal variant. -/
structure State where
  language : Lang
  userInput : String
  messages : List Message
  isTyping : Bool
  recommendedProducts : List ShopifyProduct
  avatarVideoUrl : Option String
deriving DecidableEq

/-- Result of the live fetch as seen by callBackend. -/
inductive Outcome
  | ok (data : RespData)
  | error
deriving DecidableEq

/-- Observable side effects of the minimal variant. -/
inductive Action
  | append (m : Message)
  | fetchIssued (shop message : String) (history : List (String × String))
deriving DecidableEq

/-- Recognise an issued fetch. -/
def isFetchAct : Action → Bool
  | .fetchIssued _ _ _ => true
  | _ => false

/-- The fixed apology of the catch branch of callBackend. -/
def apology : Lang → String
  | .en => "Sorry, something went wrong."
  | .fr => "Désolé, une erreur est survenue."

/-- Fallback text when the backend reply carries no text. -/
def noAnswer : Lang → String
  | .en => "No answer."
  | .fr => "Pas de réponse."

/-- Text of the initial greeting effect. -/
def greeting : Lang → String
  | .en => "Hello! I\x27m here to help if you need anything."
  | .fr => "Bonjour! Je suis ici pour vous aider."

/-- History payload derived from the render snapshot of messages. -/
def historyOf (ms : List Message) : List (String × String) :=
  ms.map fun m => (roleOf m.sender, m.text)

/-- Embedding of callBackend: raises the typing flag, clears the avatar
video, issues exactly one fetch and in every case (success or the catch
clause that converts any failure into the fixed apology object) lowers
the typing flag in the finally clause. -/
def callBackend (s : State) (shop message : String)
    (hist : List (String × String)) (outcome : Outcome) :
    State × RespData × List Action :=
  let s1 := { s with avatarVideoUrl := none, isTyping := false }
  match outcome with
  | .ok data => (s1, data, [Action.fetchIssued shop message hist])
  | .error =>
    (s1, { text := some (apology s.language) }, [Action.fetchIssued shop message hist])

/-- Assistant text derived from a backend result: the result text, or
the per-language fallback when it is falsy. -/
def assistantTextOf (lang : Lang) (result : RespData) : String :=
  match result.text with
  | some t => if t = "" then noAnswer lang else t
  | none => noAnswer lang

/-- Assistant turn derived from a backend result. -/
def assistantMsgOf (now : Nat) (lang : Lang) (result : RespData) : Message :=
  { id := now + 1, text := assistantTextOf lang result, sender := .assistant,
    time := now,
    mtype := some (if result.recommended_products.isSome then "store" else "general") }

/-- Embedding of handleSend: whitespace-only input returns silently;
otherwise the user turn is appended first, the history snapshot (the
render closure value, without the new user turn) is sent to
callBackend, and the assistant turn derived from the result is appended
after the call resolves. -/
def handleSend (s : State) (now : Nat) (shop : String) (outcome : Outcome) :
    State × List Action :=
  let text := jsTrim s.userInput
  if text = "" then (s, [])
  else
    let userMsg : Message := { id := now, text := text, sender := .user, time := now }
    let s1 := { s with messages := s.messages ++ [userMsg], userInput := "" }
    let hist := historyOf s.messages
    let res := callBackend s1 shop text hist outcome
    let result := res.2.1
    ({ res.1 with
        messages := res.1.messages ++ [assistantMsgOf now s.language result],
        recommendedProducts := result.recommended_products.getD [],
        avatarVideoUrl := truthyStr result.avatar_video_url },
     Action.append userMsg :: res.2.2 ++ [Action.append (assistantMsgOf now s.language result)])

/-- Widget state right after mount: the greeting effect has filled the
empty log with exactly the greeting turn (id 1). -/
def initState (lang : Lang) (now : Nat) : State :=
  { language := lang, userInput := "",
    messages := [{ id := 1, text := greeting lang, sender := .assistant,
                   time := now, mtype := some "general" }],
    isTyping := false, recommendedProducts := [], avatarVideoUrl := none }

end P0

/-- C1: the claim states that for a reply with both speechUrl and
avatarVideoUrl set (muted false), a failing speechUrl playback is
followed by an avatarVideoUrl attempt, never directly by synthesis.  On
the code the opposite happens: playSpeech falls back to speakWithTTS
and returns without touching the video element. -/
theorem claim_C1_counterexample :
    V1.playSpeech false true true false
        { text := "hello there", speech_url := some "https://e.com/a.mp3",
          avatar_video_url := some "https://e.com/v.mp4" }
      = [V1.PlayAction.playAudio "https://e.com/a.mp3", V1.PlayAction.tts "hello there"] ∧
    V1.PlayAction.playVideo "https://e.com/v.mp4" ∉
      V1.playSpeech false true true false
        { text := "hello there", speech_url := some "https://e.com/a.mp3",
          avatar_video_url := some "https://e.com/v.mp4" } := by
  decide

/-- C1 (amended): with muted false and a present (truthy) speechUrl,
only the speechUrl playback is attempted first; if that playback fails,
on-device synthesis of the reply text is attempted next; the
avatarVideoUrl playback is never attempted. -/
theorem claim_C1_amended (hasVideoEl audioFails videoFails : Bool)
    (r : V1.ChatResponse) (u : String) (h : truthyStr r.speech_url = some u) :
    V1.playSpeech false hasVideoEl audioFails videoFails r
        = (if audioFails then [V1.PlayAction.playAudio u, V1.PlayAction.tts r.text]
           else [V1.PlayAction.playAudio u]) ∧
    (V1.playSpeech false hasVideoEl audioFails videoFails r).all
        (fun a => ! V1.isVideoAct a) = true := by
  refine ⟨?_, ?_⟩ <;> cases audioFails <;> simp [V1.playSpeech, V1.isVideoAct, h]

/-- C1 (witness): the amended theorem instantiated at a concrete reply
whose speechUrl playback fails. -/
theorem claim_C1_witness :
    truthyStr ({ text := "hi", speech_url := some "https://e.com/a.mp3" } : V1.ChatResponse).speech_url
        = some "https://e.com/a.mp3" ∧
    V1.playSpeech false true true false
        { text := "hi", speech_url := some "https://e.com/a.mp3" }
      = [V1.PlayAction.playAudio "https://e.com/a.mp3", V1.PlayAction.tts "hi"] :=
  ⟨by decide,
   by
    have h := claim_C1_amended true true false
      { text := "hi", speech_url := some "https://e.com/a.mp3" }
      "https://e.com/a.mp3" (by decide)
    simpa using h.1⟩

/-- C2: with muted false and a present speechUrl, a failing speechUrl
playback falls through directly to on-device synthesis of the reply
text, skipping the avatarVideoUrl step entirely. -/
theorem claim_C2 (hasVideoEl videoFails : Bool) (r : V1.ChatResponse)
    (u : String) (h : truthyStr r.speech_url = some u) :
    V1.playSpeech false hasVideoEl true videoFails r
      = [V1.PlayAction.playAudio u, V1.PlayAction.tts r.text] := by
  simp [V1.playSpeech, h]

/-- C2 (witness): the theorem instantiated at a concrete reply that
also carries a video url, showing the video step is skipped. -/
theorem claim_C2_witness :
    truthyStr ({ text := "welcome", speech_url := some "https://cdn.example/w.mp3",
                 avatar_video_url := some "https://cdn.example/w.mp4" } : V1.ChatResponse).speech_url
        = some "https://cdn.example/w.mp3" ∧
    V1.playSpeech false true true false
        { text := "welcome", speech_url := some "https://cdn.example/w.mp3",
          avatar_video_url := some "https://cdn.example/w.mp4" }
      = [V1.PlayAction.playAudio "https://cdn.example/w.mp3", V1.PlayAction.tts "welcome"] :=
  ⟨by decide,
   claim_C2 true false
     { text := "welcome", speech_url := some "https://cdn.example/w.mp3",
       avatar_video_url := some "https://cdn.example/w.mp4" }
     "https://cdn.example/w.mp3" (by decide)⟩

/-- C3: the claim quantifies over the mock-mode gateways, but the
fetchChat gateway of the first variant returns the canned Demo Product
for every message, including one containing "headphone": its single
recommended item is titled Demo Product at 9.99 dollars, not Premium
Wireless Headphones at 129.99 dollars. -/
theorem claim_C3_counterexample :
    strContains (jsLower "Do you sell headphone gear?") "headphone" = true ∧
    (V1.fetchChat true V1.FetchOutcome.networkError "Do you sell headphone gear?").recommended_products
      = some [V1.demoRecItem] ∧
    V1.demoRecItem.title = "Demo Product" ∧
    V1.demoRecItem.title ≠ "Premium Wireless Headphones" := by
  decide

/-- C3 (amended): in mock mode the keyword-matching responder of the
futuristic variant (mockReply) returns, for every message whose
lower-cased text contains "headphone", exactly one recommended item
titled Premium Wireless Headphones priced 129.99 dollars, for every
random draw; the demo fetchChat gateways instead always return the
single canned Demo Product. -/
theorem claim_C3_amended (randIdx : Nat) (m : String)
    (h : strContains (jsLower m) "headphone" = true) :
    (Fut.mockReplyCore randIdx m).2.map (fun p => (p.title, p.price))
      = [("Premium Wireless Headphones", "$129.99")] := by
  simp [Fut.mockReplyCore, h, Fut.premiumHeadphones]

/-- C3 (witness): the amended theorem instantiated at a concrete
headphone message and random draw. -/
theorem claim_C3_witness :
    strContains (jsLower "any HEADPHONE deals?") "headphone" = true ∧
    (Fut.mockReplyCore 7 "any HEADPHONE deals?").2.map (fun p => (p.title, p.price))
      = [("Premium Wireless Headphones", "$129.99")] :=
  ⟨by decide, claim_C3_amended 7 "any HEADPHONE deals?" (by decide)⟩

/-- C4: in live mode every failing send (rejected fetch, network error,
or non-success response, which the code throws and catches) is not
retried (exactly one fetch is issued) and yields the fixed apology
reply with no recommended items, no audio url and no video url, and the
typing flag is false once the call completes.  Stated for the three
cited failure paths: fetchChat of the first variant, handleSend plus
callBackend of the futuristic variant, and callBackend of the minimal
variant. -/
theorem claim_C4 :
    (∀ (m : String) (st : Nat),
        V1.fetchChat false (V1.FetchOutcome.httpError st) m = { text := V1.apology } ∧
        V1.fetchChat false V1.FetchOutcome.networkError m = { text := V1.apology } ∧
        ({ text := V1.apology } : V1.ChatResponse).recommended_products = none ∧
        ({ text := V1.apology } : V1.ChatResponse).speech_url = none ∧
        ({ text := V1.apology } : V1.ChatResponse).avatar_video_url = none) ∧
    (∀ (s : Fut.WidgetState) (t : String) (now randIdx : Nat) (shop : String) (af : Bool),
        jsTrim t ≠ "" →
        (Fut.handleSend false s (some t) now randIdx shop Fut.FetchOutcome.error af).1.typing = false ∧
        (Fut.handleSend false s (some t) now randIdx shop Fut.FetchOutcome.error af).1.recommended = [] ∧
        (∃ u a, (Fut.handleSend false s (some t) now randIdx shop Fut.FetchOutcome.error af).1.messages
              = s.messages ++ [u, a] ∧
            a.text = "Sorry, I couldn\x27t reach the server." ∧ a.audioUrl = none ∧
            a.sender = Sender.assistant) ∧
        ((Fut.handleSend false s (some t) now randIdx shop Fut.FetchOutcome.error af).2.filter
            Fut.isFetchAct).length = 1) ∧
    (∀ (s : P0.State) (shop msg : String) (hist : List (String × String)),
        (P0.callBackend s shop msg hist P0.Outcome.error).2.1
          = { text := some (P0.apology s.language) } ∧
        ({ text := some (P0.apology s.language) } : P0.RespData).recommended_products = none ∧
        ({ text := some (P0.apology s.language) } : P0.RespData).avatar_video_url = none ∧
        (P0.callBackend s shop msg hist P0.Outcome.error).1.isTyping = false ∧
        ((P0.callBackend s shop msg hist P0.Outcome.error).2.2.filter P0.isFetchAct).length = 1) := by
  refine ⟨?_, ?_, ?_⟩
  · intro m st
    refine ⟨by simp [V1.fetchChat], by simp [V1.fetchChat], rfl, rfl, rfl⟩
  · intro s t now randIdx shop af h
    refine ⟨?_, ?_, ?_, ?_⟩
    · simp [Fut.handleSend, h, Fut.callBackend, Fut.resolveCall, Fut.sendPhase1]
    · simp [Fut.handleSend, h, Fut.callBackend, Fut.resolveCall, Fut.sendPhase1]
    · refine ⟨Fut.userMsgOf (jsTrim t) now, Fut.errAssistantMsg now, ?_, rfl, rfl, rfl⟩
      simp [Fut.handleSend, h, Fut.callBackend, Fut.resolveCall, Fut.sendPhase1]
    · simp [Fut.handleSend, h, Fut.callBackend, Fut.resolveCall, Fut.sendPhase1, Fut.isFetchAct]
  · intro s shop msg hist
    refine ⟨rfl, rfl, rfl, rfl, ?_⟩
    simp [P0.callBackend, P0.isFetchAct]

/-- C4 (witness): the futuristic part of the theorem instantiated at
the post-mount state with a concrete failing submission. -/
theorem claim_C4_witness :
    jsTrim "hi" ≠ "" ∧
    (Fut.handleSend false (Fut.initState true false VMode.text 0) (some "hi") 1 0
        "demo-shop.myshopify.com" Fut.FetchOutcome.error false).1.typing = false ∧
    (Fut.handleSend false (Fut.initState true false VMode.text 0) (some "hi") 1 0
        "demo-shop.myshopify.com" Fut.FetchOutcome.error false).1.recommended = [] :=
  ⟨by decide,
   (claim_C4.2.1 (Fut.initState true false VMode.text 0) "hi" 1 0
     "demo-shop.myshopify.com" false (by decide)).1,
   (claim_C4.2.1 (Fut.initState true false VMode.text 0) "hi" 1 0
     "demo-shop.myshopify.com" false (by decide)).2.1⟩

/-- Helper: one completed submission appends exactly its user turn
followed by its assistant turn, in both gateway modes and on both
outcomes. -/
theorem Fut.handleSend_senders (mockMode : Bool) (s : Fut.WidgetState) (t : String)
    (now randIdx : Nat) (shop : String) (oc : Fut.FetchOutcome) (af : Bool)
    (h : jsTrim t ≠ "") :
    (Fut.handleSend mockMode s (some t) now randIdx shop oc af).1.messages.map Fut.Message.sender
      = s.messages.map Fut.Message.sender ++ [Sender.user, Sender.assistant] := by
  cases mockMode <;> cases oc <;>
    simp [Fut.handleSend, h, Fut.callBackend, Fut.resolveCall, Fut.sendPhase1,
      Fut.mockReply, Fut.userMsgOf, Fut.okAssistantMsg, Fut.errAssistantMsg,
      Fut.mockAssistantMsg]

/-- C5: the claim asserts that turn order always equals
submission-initiation order with no reordering.  Nothing disables the
composer while a call is in flight, so a second submission can be
initiated before the first live call resolves; when the second call
resolves first (a legal event-loop schedule) the assistant turns are
appended in resolution order, not initiation order, unlike the
sequential schedule. -/
theorem claim_C5_counterexample :
    ((Fut.interleavedTwo (Fut.initState true false VMode.text 0)
        "first question" "second question" 1 2
        (Fut.FetchOutcome.ok { text := "answer to first" })
        (Fut.FetchOutcome.ok { text := "answer to second" })).messages.map Fut.Message.text
      = [Fut.welcomeText, "first question", "second question",
         "answer to second", "answer to first"]) ∧
    ((Fut.runSubmissions false "shop" (Fut.initState true false VMode.text 0)
        [{ text := "first question", now := 1, randIdx := 0,
           outcome := Fut.FetchOutcome.ok { text := "answer to first" },
           audioPlayFails := false },
         { text := "second question", now := 2, randIdx := 0,
           outcome := Fut.FetchOutcome.ok { text := "answer to second" },
           audioPlayFails := false }]).messages.map Fut.Message.text
      = [Fut.welcomeText, "first question", "answer to first",
         "second question", "answer to second"]) ∧
    ([Fut.welcomeText, "first question", "second question",
      "answer to second", "answer to first"]
      ≠ [Fut.welcomeText, "first question", "answer to first",
         "second question", "answer to second"]) := by
  decide

/-- C5 (amended): each user turn is appended before its gateway call is
issued and its assistant turn is appended only after that call
resolves; and when submissions are processed one at a time (each
completing before the next is initiated) the turn order equals
submission-initiation order: the log extends by exactly the user turn
then the assistant turn of each submission in sequence. -/
theorem claim_C5_amended :
    (∀ (s : Fut.WidgetState) (t : String) (now randIdx : Nat) (shop : String)
        (oc : Fut.FetchOutcome) (af : Bool), jsTrim t ≠ "" →
        ∃ a rest,
          (Fut.handleSend false s (some t) now randIdx shop oc af).2
            = Fut.Action.append (Fut.userMsgOf (jsTrim t) now)
                :: Fut.Action.fetchIssued shop (jsTrim t) (Fut.historyOf s.messages)
                :: Fut.Action.append a :: rest ∧
          a.sender = Sender.assistant) ∧
    (∀ (mockMode : Bool) (shop : String) (s : Fut.WidgetState)
        (subs : List Fut.Submission),
        (∀ sub ∈ subs, jsTrim sub.text ≠ "") →
        (Fut.runSubmissions mockMode shop s subs).messages.map Fut.Message.sender
          = s.messages.map Fut.Message.sender
            ++ (subs.map fun _ => [Sender.user, Sender.assistant]).flatten) := by
  constructor
  · intro s t now randIdx shop oc af h
    cases oc with
    | ok data =>
      refine ⟨Fut.okAssistantMsg now data,
        Fut.okSpeechActs (Fut.sendPhase1 s (jsTrim t) now) data af, ?_, rfl⟩
      simp [Fut.handleSend, h, Fut.callBackend, Fut.resolveCall]
    | error =>
      refine ⟨Fut.errAssistantMsg now, [], ?_, rfl⟩
      simp [Fut.handleSend, h, Fut.callBackend, Fut.resolveCall]
  · intro mockMode shop s subs
    induction subs generalizing s with
    | nil => intro _; simp [Fut.runSubmissions]
    | cons sub rest ih =>
      intro hall
      have hsub : jsTrim sub.text ≠ "" := hall sub (by simp)
      have hrest : ∀ x ∈ rest, jsTrim x.text ≠ "" := fun x hx => hall x (by simp [hx])
      simp only [Fut.runSubmissions]
      rw [ih _ hrest,
        Fut.handleSend_senders mockMode s sub.text sub.now sub.randIdx shop
          sub.outcome sub.audioPlayFails hsub]
      simp [List.append_assoc]

/-- C5 (witness): the amended theorem instantiated at the post-mount
state with one concrete submission. -/
theorem claim_C5_witness :
    jsTrim "hello" ≠ "" ∧
    (∃ a rest,
        (Fut.handleSend false (Fut.initState true false VMode.text 0) (some "hello") 3 0
            "shop" (Fut.FetchOutcome.ok { text := "sure" }) false).2
          = Fut.Action.append (Fut.userMsgOf (jsTrim "hello") 3)
              :: Fut.Action.fetchIssued "shop" (jsTrim "hello")
                  (Fut.historyOf (Fut.initState true false VMode.text 0).messages)
              :: Fut.Action.append a :: rest ∧
        a.sender = Sender.assistant) ∧
    (Fut.runSubmissions false "shop" (Fut.initState true false VMode.text 0)
        [{ text := "hello", now := 3, randIdx := 0,
           outcome := Fut.FetchOutcome.ok { text := "sure" },
           audioPlayFails := false }]).messages.map Fut.Message.sender
      = (Fut.initState true false VMode.text 0).messages.map Fut.Message.sender
          ++ (([{ text := "hello", now := 3, randIdx := 0,
                  outcome := Fut.FetchOutcome.ok { text := "sure" },
                  audioPlayFails := false }] : List Fut.Submission).map
              fun _ => [Sender.user, Sender.assistant]).flatten :=
  ⟨by decide,
   claim_C5_amended.1 (Fut.initState true false VMode.text 0) "hello" 3 0 "shop"
     (Fut.FetchOutcome.ok { text := "sure" }) false (by decide),
   claim_C5_amended.2 false "shop" (Fut.initState true false VMode.text 0)
     [{ text := "hello", now := 3, randIdx := 0,
        outcome := Fut.FetchOutcome.ok { text := "sure" },
        audioPlayFails := false }] (by decide)⟩

/-- C6: the claim states that every operation only appends and the log
length never decreases, but the futuristic widget has a Clear button
that resets the message log to empty: applied right after mount it
shrinks the log from one turn to zero. -/
theorem claim_C6_counterexample :
    (Fut.applyOp false (Fut.initState true false VMode.text 0) Fut.Op.clearChat).1.messages.length
        < (Fut.initState true false VMode.text 0).messages.length ∧
    (Fut.applyOp false (Fut.initState true false VMode.text 0) Fut.Op.clearChat).1.messages = [] := by
  decide

/-- C6 (amended): every operation of the widget except the Clear button
only appends: the prior log is preserved unchanged as a prefix (turns
are never edited or removed and the length never decreases); the Clear
button resets the log to empty. -/
theorem claim_C6_amended (mockMode : Bool) (s : Fut.WidgetState) (op : Fut.Op)
    (h : op ≠ Fut.Op.clearChat) :
    ∃ tl, (Fut.applyOp mockMode s op).1.messages = s.messages ++ tl := by
  cases op with
  | clearChat => exact absurd rfl h
  | send t now randIdx shop oc af =>
    by_cases he : jsTrim (t.getD s.input) = ""
    · exact ⟨[], by simp [Fut.applyOp, Fut.handleSend, he]⟩
    · cases mockMode with
      | false =>
        cases oc with
        | ok data =>
          exact ⟨[Fut.userMsgOf (jsTrim (t.getD s.input)) now, Fut.okAssistantMsg now data],
            by simp [Fut.applyOp, Fut.handleSend, he, Fut.callBackend,
              Fut.resolveCall, Fut.sendPhase1]⟩
        | error =>
          exact ⟨[Fut.userMsgOf (jsTrim (t.getD s.input)) now, Fut.errAssistantMsg now],
            by simp [Fut.applyOp, Fut.handleSend, he, Fut.callBackend,
              Fut.resolveCall, Fut.sendPhase1]⟩
      | true =>
        exact ⟨[Fut.userMsgOf (jsTrim (t.getD s.input)) now,
                Fut.mockAssistantMsg now randIdx (jsTrim (t.getD s.input))],
          by simp [Fut.applyOp, Fut.handleSend, he, Fut.mockReply, Fut.sendPhase1]⟩
  | toggleMute => exact ⟨[], by simp [Fut.applyOp]⟩
  | chooseVoiceMode v => exact ⟨[], by simp [Fut.applyOp]⟩
  | addToCart p now => exact ⟨[Fut.cartMsg p now], by simp [Fut.applyOp]⟩
  | setOpenFlag b => exact ⟨[], by simp [Fut.applyOp]⟩
  | typeInput t => exact ⟨[], by simp [Fut.applyOp]⟩

/-- C6 (witness): the amended theorem instantiated at the post-mount
state with a concrete mute toggle. -/
theorem claim_C6_witness :
    Fut.Op.toggleMute ≠ Fut.Op.clearChat ∧
    ∃ tl, (Fut.applyOp false (Fut.initState true false VMode.text 0)
        Fut.Op.toggleMute).1.messages
      = (Fut.initState true false VMode.text 0).messages ++ tl :=
  ⟨by decide,
   claim_C6_amended false (Fut.initState true false VMode.text 0)
     Fut.Op.toggleMute (by decide)⟩

/-- C7: submitting a string that is empty or trims to empty is a silent
no-op in all three variants: the state is unchanged, no turn is
appended, no gateway call is issued and no action at all is produced. -/
theorem claim_C7 :
    (∀ (mockMode : Bool) (s : Fut.WidgetState) (t : Option String)
        (now randIdx : Nat) (shop : String) (oc : Fut.FetchOutcome) (af : Bool),
        jsTrim (t.getD s.input) = "" →
        Fut.handleSend mockMode s t now randIdx shop oc af = (s, [])) ∧
    (∀ (mockMode : Bool) (s : V1.State) (m : String) (oc : V1.FetchOutcome)
        (hv afl vfl : Bool),
        (m = "" ∨ jsTrim m = "") →
        V1.handleSendMessage mockMode s m oc hv afl vfl = (s, [])) ∧
    (∀ (s : P0.State) (now : Nat) (shop : String) (oc : P0.Outcome),
        jsTrim s.userInput = "" →
        P0.handleSend s now shop oc = (s, [])) := by
  refine ⟨?_, ?_, ?_⟩
  · intro mockMode s t now randIdx shop oc af h
    simp [Fut.handleSend, h]
  · intro mockMode s m oc hv afl vfl h
    simp [V1.handleSendMessage, h]
  · intro s now shop oc h
    simp [P0.handleSend, h]

/-- C7 (witness): the three parts instantiated on concrete
whitespace-only submissions. -/
theorem claim_C7_witness :
    jsTrim "   " = "" ∧
    Fut.handleSend false (Fut.initState true false VMode.text 0) (some "   ") 1 0
        "shop" Fut.FetchOutcome.error false
      = ((Fut.initState true false VMode.text 0), []) ∧
    V1.handleSendMessage true { historyH := [], lastReply := none, muted := false }
        " " V1.FetchOutcome.networkError true false false
      = ({ historyH := [], lastReply := none, muted := false }, []) ∧
    P0.handleSend { P0.initState P0.Lang.en 0 with userInput := "  " } 1 "shop"
        P0.Outcome.error
      = ({ P0.initState P0.Lang.en 0 with userInput := "  " }, []) :=
  ⟨by decide,
   claim_C7.1 false (Fut.initState true false VMode.text 0) (some "   ") 1 0
     "shop" Fut.FetchOutcome.error false (by decide),
   claim_C7.2.1 true { historyH := [], lastReply := none, muted := false }
     " " V1.FetchOutcome.networkError true false false (Or.inr (by decide)),
   claim_C7.2.2 { P0.initState P0.Lang.en 0 with userInput := "  " } 1 "shop"
     P0.Outcome.error (by decide)⟩

/-- C8: the claim states that the mock responder is deterministic in
the message and history, but for a message matching no keyword the
filler text is selected by Math.random: two invocations on the same
message with different draws return different reply texts. -/
theorem claim_C8_counterexample :
    (Fut.mockReplyCore 0 "hello").1 ≠ (Fut.mockReplyCore 1 "hello").1 ∧
    (Fut.mockReplyCore 0 "hello").1
      = "Nice choice — I can find the perfect match for your needs." ∧
    (Fut.mockReplyCore 1 "hello").1
      = "On it — scanning the shop for best options." := by
  decide

/-- C8 (amended): the mock responder is deterministic in the message
alone for every keyword-matched message, and its recommended items are
deterministic in the message for every message; only the filler text of
an unmatched message varies with the random draw. -/
theorem claim_C8_amended :
    (∀ (r1 r2 : Nat) (m : String),
        (strContains (jsLower m) "headphone" || strContains (jsLower m) "headset"
          || strContains (jsLower m) "fitness" || strContains (jsLower m) "tracker") = true →
        Fut.mockReplyCore r1 m = Fut.mockReplyCore r2 m) ∧
    (∀ (r1 r2 : Nat) (m : String),
        (Fut.mockReplyCore r1 m).2 = (Fut.mockReplyCore r2 m).2) := by
  constructor
  · intro r1 r2 m h
    by_cases h1 : (strContains (jsLower m) "headphone"
        || strContains (jsLower m) "headset") = true
    · simp [Fut.mockReplyCore, h1]
    · have h1f := h1
      simp only [Bool.or_eq_true, not_or, Bool.not_eq_true] at h1f
      have h2 : (strContains (jsLower m) "fitness"
          || strContains (jsLower m) "tracker") = true := by
        rcases h1f with ⟨ha, hb⟩
        simpa [ha, hb] using h
      simp [Fut.mockReplyCore, h1, h2]
  · intro r1 r2 m
    by_cases h1 : (strContains (jsLower m) "headphone"
        || strContains (jsLower m) "headset") = true
    · simp [Fut.mockReplyCore, h1]
    · by_cases h2 : (strContains (jsLower m) "fitness"
          || strContains (jsLower m) "tracker") = true
      · simp [Fut.mockReplyCore, h1, h2]
      · simp [Fut.mockReplyCore, h1, h2]

/-- C8 (witness): the keyword-matched part of the amended theorem
instantiated at a fitness message and two different draws. -/
theorem claim_C8_witness :
    (strContains (jsLower "any fitness gear?") "headphone"
      || strContains (jsLower "any fitness gear?") "headset"
      || strContains (jsLower "any fitness gear?") "fitness"
      || strContains (jsLower "any fitness gear?") "tracker") = true ∧
    Fut.mockReplyCore 0 "any fitness gear?" = Fut.mockReplyCore 2 "any fitness gear?" :=
  ⟨by decide, claim_C8_amended.1 0 2 "any fitness gear?" (by decide)⟩

/-- C9: in the voice-mode-aware futuristic variant, a submission whose
widget state has voiceMode text produces no audible output attempt at
all (no audio-element playback and no synthesis dispatch), in mock and
live mode alike, for every outcome and every muted value. -/
theorem claim_C9 (mockMode : Bool) (s : Fut.WidgetState) (t : Option String)
    (now randIdx : Nat) (shop : String) (oc : Fut.FetchOutcome) (af : Bool)
    (h : s.voiceMode = VMode.text) :
    (Fut.handleSend mockMode s t now randIdx shop oc af).2.filter Fut.isSpeechAct = [] := by
  by_cases he : jsTrim (t.getD s.input) = ""
  · simp [Fut.handleSend, he]
  · cases mockMode <;> cases oc <;>
      simp [Fut.handleSend, he, Fut.callBackend, Fut.resolveCall, Fut.sendPhase1,
        Fut.mockReply, Fut.okSpeechActs, Fut.isSpeechAct, h]

/-- C9 (witness): the theorem instantiated at an unmuted post-mount
state in text mode with a live reply that carries a speech url. -/
theorem claim_C9_witness :
    (Fut.initState true false VMode.text 0).voiceMode = VMode.text ∧
    (Fut.handleSend false (Fut.initState true false VMode.text 0) (some "play music") 1 0
        "shop"
        (Fut.FetchOutcome.ok
          { text := "here you go", speech_url := some "https://cdn.example/x.mp3" })
        false).2.filter Fut.isSpeechAct = [] :=
  ⟨rfl,
   claim_C9 false (Fut.initState true false VMode.text 0) (some "play music") 1 0
     "shop"
     (Fut.FetchOutcome.ok
       { text := "here you go", speech_url := some "https://cdn.example/x.mp3" })
     false rfl⟩

/-- C10: right after mount and before any submission the log of the two
greeting-bearing variants holds exactly one assistant greeting turn, so
the history issued with the first live submission is the one-element
list whose head has the assistant role. -/
theorem claim_C10 :
    (∀ (so sm : Bool) (vm : VMode) (now : Nat),
        (Fut.initState so sm vm now).messages = [Fut.welcomeMsg now] ∧
        (Fut.welcomeMsg now).sender = Sender.assistant) ∧
    (∀ (so sm : Bool) (vm : VMode) (now now2 randIdx : Nat) (shop t : String)
        (oc : Fut.FetchOutcome) (af : Bool),
        jsTrim t ≠ "" →
        ∃ rest,
          (Fut.handleSend false (Fut.initState so sm vm now) (some t) now2 randIdx
              shop oc af).2
            = Fut.Action.append (Fut.userMsgOf (jsTrim t) now2)
                :: Fut.Action.fetchIssued shop (jsTrim t) [("assistant", Fut.welcomeText)]
                :: rest) ∧
    (∀ (lang : P0.Lang) (now : Nat),
        (P0.initState lang now).messages.map P0.Message.sender = [Sender.assistant]) ∧
    (∀ (lang : P0.Lang) (now now2 : Nat) (shop raw : String) (oc : P0.Outcome),
        jsTrim raw ≠ "" →
        ∃ rest,
          (P0.handleSend { P0.initState lang now with userInput := raw } now2 shop oc).2
            = P0.Action.append
                { id := now2, text := jsTrim raw, sender := Sender.user, time := now2 }
                :: P0.Action.fetchIssued shop (jsTrim raw) [("assistant", P0.greeting lang)]
                :: rest) := by
  refine ⟨fun so sm vm now => ⟨rfl, rfl⟩, ?_, fun lang now => rfl, ?_⟩
  · intro so sm vm now now2 randIdx shop t oc af h
    cases oc with
    | ok data =>
      refine ⟨Fut.Action.append (Fut.okAssistantMsg now2 data)
          :: Fut.okSpeechActs
              (Fut.sendPhase1 (Fut.initState so sm vm now) (jsTrim t) now2) data af, ?_⟩
      simp [Fut.handleSend, h, Fut.callBackend, Fut.resolveCall, Fut.initState,
        Fut.historyOf, Fut.welcomeMsg, roleOf]
    | error =>
      refine ⟨[Fut.Action.append (Fut.errAssistantMsg now2)], ?_⟩
      simp [Fut.handleSend, h, Fut.callBackend, Fut.resolveCall, Fut.initState,
        Fut.historyOf, Fut.welcomeMsg, roleOf]
  · intro lang now now2 shop raw oc h
    cases oc with
    | ok data =>
      refine ⟨[P0.Action.append (P0.assistantMsgOf now2 lang data)], ?_⟩
      simp [P0.handleSend, h, P0.callBackend, P0.historyOf, P0.initState, roleOf]
    | error =>
      refine ⟨[P0.Action.append (P0.assistantMsgOf now2 lang
          { text := some (P0.apology lang) })], ?_⟩
      simp [P0.handleSend, h, P0.callBackend, P0.historyOf, P0.initState, roleOf]

/-- C10 (witness): the two history-issuing parts instantiated at
concrete first submissions. -/
theorem claim_C10_witness :
    jsTrim "what do you sell?" ≠ "" ∧
    (∃ rest,
        (Fut.handleSend false (Fut.initState true false VMode.text 0)
            (some "what do you sell?") 5 0 "shop" Fut.FetchOutcome.error false).2
          = Fut.Action.append (Fut.userMsgOf (jsTrim "what do you sell?") 5)
              :: Fut.Action.fetchIssued "shop" (jsTrim "what do you sell?")
                  [("assistant", Fut.welcomeText)]
              :: rest) ∧
    (∃ rest,
        (P0.handleSend { P0.initState P0.Lang.en 0 with userInput := "what do you sell?" }
            5 "shop" P0.Outcome.error).2
          = P0.Action.append
              { id := 5, text := jsTrim "what do you sell?", sender := Sender.user, time := 5 }
              :: P0.Action.fetchIssued "shop" (jsTrim "what do you sell?")
                  [("assistant", P0.greeting P0.Lang.en)]
              :: rest) :=
  ⟨by decide,
   claim_C10.2.1 true false VMode.text 0 5 0 "shop" "what do you sell?"
     Fut.FetchOutcome.error false (by decide),
   claim_C10.2.2.2 P0.Lang.en 0 5 "shop" "what do you sell?" P0.Outcome.error (by decide)⟩
